import Mathlib

/-!
Verification of the PigeonHub ESP32 build hook
(`src/embedded/esp32/esp32-sketch/embed_wasm.py`).

The hook reads the project root from the build environment, joins it with
the fixed artifact filename `pigeonhub_client.wasm`, checks whether that
file exists, and either appends linker/compile flags to the environment
(printing an informational line) or prints a two-line warning and leaves
the environment untouched.  We embed the script as a total function over
an explicit environment record and a filesystem oracle, with the printed
lines returned alongside the updated environment.
-/

/-- The fixed artifact filename joined onto the project root
(`"pigeonhub_client.wasm"` in the script). -/
def wasmFileName : String := "pigeonhub_client.wasm"

/-- The path separator used by `os.path.join` on posix hosts. -/
def sepChar : Char := '/'

/-- `os.path.join a b` for exactly two components, posix semantics:
if `b` is absolute it replaces `a`; otherwise a separator is inserted
unless `a` is empty or already ends with the separator. -/
def osPathJoin (path b : String) : String :=
  if b.data.head? = some sepChar then b
  else if path = "" ∨ path.data.getLast? = some sepChar then path ++ b
  else path ++ sepChar.toString ++ b

/-- The resolved artifact path
(`wasm_file = os.path.join(project_dir, "pigeonhub_client.wasm")`). -/
def resolvedPath (projectDir : String) : String :=
  osPathJoin projectDir wasmFileName

/-- The SCons build environment as the hook sees it: the `$PROJECT_DIR`
variable it reads, the two flag lists it appends to, and the remaining
construction variables, which the hook never touches. -/
structure SConsEnv where
  PROJECT_DIR : String
  LINKFLAGS : List String
  BUILD_FLAGS : List String
  otherVars : List (String × List String)
deriving Repr, DecidableEq

/-- The embedding of `embed_wasm.py`.  `fs` is the filesystem existence
oracle (`os.path.exists`, which returns a boolean and never raises).
The result carries the updated environment and the printed lines; the
`Except` layer records that the script can in principle propagate a
Python exception, and the embedding shows it never does. -/
def embedWasm (fs : String → Bool) (env : SConsEnv) :
    Except String (SConsEnv × List String) :=
  let project_dir := env.PROJECT_DIR
  let wasm_file := resolvedPath project_dir
  if fs wasm_file then
    Except.ok
      (⟨env.PROJECT_DIR,
        env.LINKFLAGS ++ ["-Wl,--embedded-file", "-Wl," ++ wasm_file],
        env.BUILD_FLAGS ++ ["-DWASM_BINARY_PATH=\\\"" ++ wasm_file ++ "\\\""],
        env.otherVars⟩,
       ["Embedding WASM binary: " ++ wasm_file])
  else
    Except.ok
      (env,
       ["WARNING: WASM file not found at " ++ wasm_file,
        "PigeonHub will compile but WASM functionality will not work!"])

/-- Claim C1: when the artifact exists, one invocation appends exactly one
linker-flag pair (two string entries) and exactly one compile-flag entry,
and the compile-flag entry is the escaped-quote define of the resolved
path. -/
theorem embedWasm_found_appends (fs : String → Bool) (env : SConsEnv)
    (h : fs (resolvedPath env.PROJECT_DIR) = true) :
    ∃ out,
      embedWasm fs env =
        Except.ok
          (⟨env.PROJECT_DIR,
            env.LINKFLAGS ++
              ["-Wl,--embedded-file", "-Wl," ++ resolvedPath env.PROJECT_DIR],
            env.BUILD_FLAGS ++
              ["-DWASM_BINARY_PATH=\\\"" ++ resolvedPath env.PROJECT_DIR ++ "\\\""],
            env.otherVars⟩,
           out) := by
  refine ⟨["Embedding WASM binary: " ++ resolvedPath env.PROJECT_DIR], ?_⟩
  simp [embedWasm, h]

/-- Witness for C1 at a concrete environment with non-empty flag lists. -/
theorem embedWasm_found_appends_witness :
    ∃ out,
      embedWasm (fun _ => true) ⟨"/proj", ["-old"], ["-Dold"], [("CXX", ["g++"])]⟩ =
        Except.ok
          (⟨"/proj",
            ["-old"] ++ ["-Wl,--embedded-file", "-Wl," ++ resolvedPath "/proj"],
            ["-Dold"] ++ ["-DWASM_BINARY_PATH=\\\"" ++ resolvedPath "/proj" ++ "\\\""],
            [("CXX", ["g++"])]⟩,
           out) :=
  embedWasm_found_appends (fun _ => true) ⟨"/proj", ["-old"], ["-Dold"], [("CXX", ["g++"])]⟩ rfl

/-- Claim C2: when the artifact is missing, the environment is returned
unchanged, in particular zero entries are appended to either flag list
and every pre-existing entry of both lists is preserved in order. -/
theorem embedWasm_missing_frame (fs : String → Bool) (env : SConsEnv)
    (h : fs (resolvedPath env.PROJECT_DIR) = false) :
    embedWasm fs env =
      Except.ok
        (env,
         ["WARNING: WASM file not found at " ++ resolvedPath env.PROJECT_DIR,
          "PigeonHub will compile but WASM functionality will not work!"]) := by
  simp [embedWasm, h]

/-- Witness for C2: a concrete environment under an always-missing filesystem. -/
theorem embedWasm_missing_frame_witness :
    embedWasm (fun _ => false) ⟨"/proj", ["-old"], ["-Dold"], []⟩ =
      Except.ok
        (⟨"/proj", ["-old"], ["-Dold"], []⟩,
         ["WARNING: WASM file not found at " ++ resolvedPath "/proj",
          "PigeonHub will compile but WASM functionality will not work!"]) :=
  embedWasm_missing_frame (fun _ => false) ⟨"/proj", ["-old"], ["-Dold"], []⟩ rfl

/-- Claim C3: the resolved artifact path is exactly the platform path-join
of the project root and the literal filename, and this join appends the
filename directly after a trailing separator and inserts one separator
otherwise (for any non-empty root). -/
theorem resolvedPath_is_join (dir : String) :
    resolvedPath dir = osPathJoin dir wasmFileName
    ∧ (dir.data.getLast? = some sepChar →
        osPathJoin dir wasmFileName = dir ++ wasmFileName)
    ∧ (dir ≠ "" → dir.data.getLast? ≠ some sepChar →
        osPathJoin dir wasmFileName = dir ++ "/" ++ wasmFileName) := by
  refine ⟨rfl, ?_, ?_⟩
  · intro hsep
    unfold osPathJoin
    rw [if_neg (by decide), if_pos (Or.inr hsep)]
  · intro hne hsep
    unfold osPathJoin
    rw [if_neg (by decide), if_neg (not_or.mpr ⟨hne, hsep⟩)]
    rfl

/-- Witness for C3: a root without a trailing separator gets one inserted. -/
theorem resolvedPath_is_join_witness :
    resolvedPath "/tmp/proj" = "/tmp/proj" ++ "/" ++ wasmFileName := by
  have h := resolvedPath_is_join "/tmp/proj"
  rw [h.1]
  exact h.2.2 (by decide) (by decide)

/-- Claim C4: for every project root and filesystem state the hook returns
normally; it never raises or terminates the process. -/
theorem embedWasm_total (fs : String → Bool) (env : SConsEnv) :
    ∃ r, embedWasm fs env = Except.ok r := by
  cases h : fs (resolvedPath env.PROJECT_DIR)
  · exact ⟨(env,
      ["WARNING: WASM file not found at " ++ resolvedPath env.PROJECT_DIR,
       "PigeonHub will compile but WASM functionality will not work!"]),
      by simp [embedWasm, h]⟩
  · exact ⟨(⟨env.PROJECT_DIR,
      env.LINKFLAGS ++ ["-Wl,--embedded-file", "-Wl," ++ resolvedPath env.PROJECT_DIR],
      env.BUILD_FLAGS ++ ["-DWASM_BINARY_PATH=\\\"" ++ resolvedPath env.PROJECT_DIR ++ "\\\""],
      env.otherVars⟩,
      ["Embedding WASM binary: " ++ resolvedPath env.PROJECT_DIR]),
      by simp [embedWasm, h]⟩

/-- Modelled from the spec: the macro value as it stands in source text
after the build tool's shell layer strips the escaping backslashes, i.e.
the resolved path wrapped in (unescaped) double quotes.  This is the
"resulting value ... substituted into source text" of the spec. -/
def substitutedLiteral (p : String) : String := "\"" ++ p ++ "\""

/-- Modelled from the spec: whether a character sequence is a valid body
of a C string literal: no raw double quote, and every backslash starts a
two-character escape of a quote or a backslash. -/
def validLitBody : List Char → Bool
  | [] => true
  | c :: rest =>
    if c = '"' then false
    else if c = '\\' then
      match rest with
      | [] => false
      | d :: rest2 => (d == '"' || d == '\\') && validLitBody rest2
    else validLitBody rest

/-- Modelled from the spec: a character sequence is a valid C string
literal when it opens with a double quote, closes with a double quote,
and has a valid body in between. -/
def isValidLitChars : List Char → Bool
  | [] => false
  | c :: rest => (c == '"') && (rest.getLast? == some '"') && validLitBody rest.dropLast

/-- Modelled from the spec: validity of a string as a C string literal
token in source text. -/
def isValidStringLiteral (s : String) : Bool := isValidLitChars s.data

/-- A character sequence free of quotes and backslashes is a valid string
literal body. -/
theorem validLitBody_of_clean :
    ∀ l : List Char, (∀ c ∈ l, c ≠ '"' ∧ c ≠ '\\') → validLitBody l = true
  | [], _ => rfl
  | c :: rest, h => by
    have hc := h c (List.mem_cons_self c rest)
    unfold validLitBody
    rw [if_neg hc.1, if_neg hc.2]
    exact validLitBody_of_clean rest (fun d hd => h d (List.mem_cons_of_mem c hd))

/-- The artifact filename contains neither quotes nor backslashes. -/
theorem clean_wasmFileName : ∀ c ∈ wasmFileName.data, c ≠ '"' ∧ c ≠ '\\' := by
  decide

/-- Joining a quote- and backslash-free project root with the artifact
filename yields a quote- and backslash-free path. -/
theorem clean_resolvedPath (dir : String)
    (h : ∀ c ∈ dir.data, c ≠ '"' ∧ c ≠ '\\') :
    ∀ c ∈ (resolvedPath dir).data, c ≠ '"' ∧ c ≠ '\\' := by
  unfold resolvedPath osPathJoin
  split
  · exact clean_wasmFileName
  split
  · intro c hc
    rw [String.data_append] at hc
    rcases List.mem_append.1 hc with h1 | h2
    · exact h c h1
    · exact clean_wasmFileName c h2
  · intro c hc
    rw [String.data_append, String.data_append] at hc
    rcases List.mem_append.1 hc with h12 | h3
    · rcases List.mem_append.1 h12 with h1 | h2
      · exact h c h1
      · have hsep : (sepChar.toString).data = ['/'] := rfl
        rw [hsep, List.mem_singleton] at h2
        subst h2
        exact ⟨by decide, by decide⟩
    · exact clean_wasmFileName c h3

/-- Counterexample to claim C5 as stated: for a project root containing a
double-quote character, the substituted macro value is NOT a valid string
literal, so the escaping does not make the value valid for every root. -/
theorem substitutedLiteral_invalid_at_quote :
    isValidStringLiteral (substitutedLiteral (resolvedPath "a\"b")) = false := by
  decide

/-- Claim C5 (amended): for every project root containing neither a
double-quote nor a backslash character, the compile-flag's macro value,
substituted into source text, is a valid string literal. -/
theorem substitutedLiteral_valid_of_clean (dir : String)
    (h : ∀ c ∈ dir.data, c ≠ '"' ∧ c ≠ '\\') :
    isValidStringLiteral (substitutedLiteral (resolvedPath dir)) = true := by
  have hdata : (substitutedLiteral (resolvedPath dir)).data
      = '"' :: ((resolvedPath dir).data ++ ['"']) := by
    simp [substitutedLiteral, String.data_append]
  unfold isValidStringLiteral
  rw [hdata]
  simp [isValidLitChars, List.getLast?_concat, List.dropLast_concat,
    validLitBody_of_clean _ (clean_resolvedPath dir h)]

/-- Witness for amended C5: a clean concrete root yields a valid literal. -/
theorem substitutedLiteral_valid_of_clean_witness :
    isValidStringLiteral (substitutedLiteral (resolvedPath "/proj")) = true :=
  substitutedLiteral_valid_of_clean "/proj" (by decide)

/-- Claim C6: two invocations under the same filesystem state (artifact
present) append the flags twice, with no de-duplication. -/
theorem embedWasm_twice_no_dedup (fs : String → Bool) (env : SConsEnv)
    (h : fs (resolvedPath env.PROJECT_DIR) = true) :
    ∃ env1 out1 env2 out2,
      embedWasm fs env = Except.ok (env1, out1)
      ∧ embedWasm fs env1 = Except.ok (env2, out2)
      ∧ env2.LINKFLAGS =
          env.LINKFLAGS
            ++ ["-Wl,--embedded-file", "-Wl," ++ resolvedPath env.PROJECT_DIR]
            ++ ["-Wl,--embedded-file", "-Wl," ++ resolvedPath env.PROJECT_DIR]
      ∧ env2.BUILD_FLAGS =
          env.BUILD_FLAGS
            ++ ["-DWASM_BINARY_PATH=\\\"" ++ resolvedPath env.PROJECT_DIR ++ "\\\""]
            ++ ["-DWASM_BINARY_PATH=\\\"" ++ resolvedPath env.PROJECT_DIR ++ "\\\""] := by
  refine
    ⟨⟨env.PROJECT_DIR,
      env.LINKFLAGS ++ ["-Wl,--embedded-file", "-Wl," ++ resolvedPath env.PROJECT_DIR],
      env.BUILD_FLAGS ++ ["-DWASM_BINARY_PATH=\\\"" ++ resolvedPath env.PROJECT_DIR ++ "\\\""],
      env.otherVars⟩,
     ["Embedding WASM binary: " ++ resolvedPath env.PROJECT_DIR],
     ⟨env.PROJECT_DIR,
      env.LINKFLAGS ++ ["-Wl,--embedded-file", "-Wl," ++ resolvedPath env.PROJECT_DIR]
        ++ ["-Wl,--embedded-file", "-Wl," ++ resolvedPath env.PROJECT_DIR],
      env.BUILD_FLAGS ++ ["-DWASM_BINARY_PATH=\\\"" ++ resolvedPath env.PROJECT_DIR ++ "\\\""]
        ++ ["-DWASM_BINARY_PATH=\\\"" ++ resolvedPath env.PROJECT_DIR ++ "\\\""],
      env.otherVars⟩,
     ["Embedding WASM binary: " ++ resolvedPath env.PROJECT_DIR],
     ?_, ?_, rfl, rfl⟩
  · simp [embedWasm, h]
  · simp [embedWasm, h]

/-- Witness for C6 at a concrete environment. -/
theorem embedWasm_twice_no_dedup_witness :
    ∃ env1 out1 env2 out2,
      embedWasm (fun _ => true) ⟨"/proj", [], [], []⟩ = Except.ok (env1, out1)
      ∧ embedWasm (fun _ => true) env1 = Except.ok (env2, out2)
      ∧ env2.LINKFLAGS =
          [] ++ ["-Wl,--embedded-file", "-Wl," ++ resolvedPath "/proj"]
            ++ ["-Wl,--embedded-file", "-Wl," ++ resolvedPath "/proj"]
      ∧ env2.BUILD_FLAGS =
          [] ++ ["-DWASM_BINARY_PATH=\\\"" ++ resolvedPath "/proj" ++ "\\\""]
            ++ ["-DWASM_BINARY_PATH=\\\"" ++ resolvedPath "/proj" ++ "\\\""] :=
  embedWasm_twice_no_dedup (fun _ => true) ⟨"/proj", [], [], []⟩ rfl

/-- Claim C7: on the found branch the linker-flag list receives the embed
directive followed by the literal path argument, and the compile-flag list
receives one entry defining the symbol WASM_BINARY_PATH whose value is the
escaped-quoted resolved path. -/
theorem embedWasm_found_flag_shape (fs : String → Bool) (env : SConsEnv)
    (h : fs (resolvedPath env.PROJECT_DIR) = true) :
    ∃ env2 out,
      embedWasm fs env = Except.ok (env2, out)
      ∧ env2.LINKFLAGS =
          env.LINKFLAGS
            ++ ["-Wl,--embedded-file", "-Wl," ++ resolvedPath env.PROJECT_DIR]
      ∧ env2.BUILD_FLAGS =
          env.BUILD_FLAGS
            ++ ["-DWASM_BINARY_PATH="
                  ++ ("\\\"" ++ resolvedPath env.PROJECT_DIR ++ "\\\"")] := by
  refine
    ⟨⟨env.PROJECT_DIR,
      env.LINKFLAGS ++ ["-Wl,--embedded-file", "-Wl," ++ resolvedPath env.PROJECT_DIR],
      env.BUILD_FLAGS ++ ["-DWASM_BINARY_PATH=\\\"" ++ resolvedPath env.PROJECT_DIR ++ "\\\""],
      env.otherVars⟩,
     ["Embedding WASM binary: " ++ resolvedPath env.PROJECT_DIR],
     ?_, rfl, ?_⟩
  · simp [embedWasm, h]
  · rw [String.append_assoc]
    rfl

/-- Witness for C7 at a concrete environment. -/
theorem embedWasm_found_flag_shape_witness :
    ∃ env2 out,
      embedWasm (fun _ => true) ⟨"/proj", [], [], []⟩ = Except.ok (env2, out)
      ∧ env2.LINKFLAGS =
          [] ++ ["-Wl,--embedded-file", "-Wl," ++ resolvedPath "/proj"]
      ∧ env2.BUILD_FLAGS =
          [] ++ ["-DWASM_BINARY_PATH=" ++ ("\\\"" ++ resolvedPath "/proj" ++ "\\\"")] :=
  embedWasm_found_flag_shape (fun _ => true) ⟨"/proj", [], [], []⟩ rfl

/-- Claim C8: the console output is exactly one of two fixed forms,
selected by the existence check: an informational line naming the path,
or a warning line naming the missing path followed by the fixed
unavailability line. -/
theorem embedWasm_output_forms (fs : String → Bool) (env : SConsEnv) :
    ∃ e,
      embedWasm fs env =
        Except.ok (e,
          if fs (resolvedPath env.PROJECT_DIR) then
            ["Embedding WASM binary: " ++ resolvedPath env.PROJECT_DIR]
          else
            ["WARNING: WASM file not found at " ++ resolvedPath env.PROJECT_DIR,
             "PigeonHub will compile but WASM functionality will not work!"]) := by
  cases h : fs (resolvedPath env.PROJECT_DIR)
  · exact ⟨env, by simp [embedWasm, h]⟩
  · exact ⟨⟨env.PROJECT_DIR,
      env.LINKFLAGS ++ ["-Wl,--embedded-file", "-Wl," ++ resolvedPath env.PROJECT_DIR],
      env.BUILD_FLAGS ++ ["-DWASM_BINARY_PATH=\\\"" ++ resolvedPath env.PROJECT_DIR ++ "\\\""],
      env.otherVars⟩, by simp [embedWasm, h]⟩

/-- Claim C9: the hook is deterministic: two invocations with equal
project-root strings and equal artifact-existence results produce the same
console output and append the same flag entries in the same order. -/
theorem embedWasm_deterministic (fs1 fs2 : String → Bool) (env1 env2 : SConsEnv)
    (hd : env1.PROJECT_DIR = env2.PROJECT_DIR)
    (hf : fs1 (resolvedPath env1.PROJECT_DIR) = fs2 (resolvedPath env2.PROJECT_DIR)) :
    ∃ e1 o1 e2 o2,
      embedWasm fs1 env1 = Except.ok (e1, o1)
      ∧ embedWasm fs2 env2 = Except.ok (e2, o2)
      ∧ o1 = o2
      ∧ e1.LINKFLAGS.drop env1.LINKFLAGS.length = e2.LINKFLAGS.drop env2.LINKFLAGS.length
      ∧ e1.BUILD_FLAGS.drop env1.BUILD_FLAGS.length = e2.BUILD_FLAGS.drop env2.BUILD_FLAGS.length := by
  cases h1 : fs1 (resolvedPath env1.PROJECT_DIR)
  · have h2 : fs2 (resolvedPath env2.PROJECT_DIR) = false := by rw [← hf, h1]
    refine ⟨env1,
      ["WARNING: WASM file not found at " ++ resolvedPath env1.PROJECT_DIR,
       "PigeonHub will compile but WASM functionality will not work!"],
      env2,
      ["WARNING: WASM file not found at " ++ resolvedPath env2.PROJECT_DIR,
       "PigeonHub will compile but WASM functionality will not work!"],
      by simp [embedWasm, h1], by simp [embedWasm, h2], by rw [hd], ?_, ?_⟩
    · rw [List.drop_length, List.drop_length]
    · rw [List.drop_length, List.drop_length]
  · have h2 : fs2 (resolvedPath env2.PROJECT_DIR) = true := by rw [← hf, h1]
    refine ⟨⟨env1.PROJECT_DIR,
      env1.LINKFLAGS ++ ["-Wl,--embedded-file", "-Wl," ++ resolvedPath env1.PROJECT_DIR],
      env1.BUILD_FLAGS ++ ["-DWASM_BINARY_PATH=\\\"" ++ resolvedPath env1.PROJECT_DIR ++ "\\\""],
      env1.otherVars⟩,
      ["Embedding WASM binary: " ++ resolvedPath env1.PROJECT_DIR],
      ⟨env2.PROJECT_DIR,
      env2.LINKFLAGS ++ ["-Wl,--embedded-file", "-Wl," ++ resolvedPath env2.PROJECT_DIR],
      env2.BUILD_FLAGS ++ ["-DWASM_BINARY_PATH=\\\"" ++ resolvedPath env2.PROJECT_DIR ++ "\\\""],
      env2.otherVars⟩,
      ["Embedding WASM binary: " ++ resolvedPath env2.PROJECT_DIR],
      by simp [embedWasm, h1], by simp [embedWasm, h2], by rw [hd], ?_, ?_⟩
    · rw [List.drop_left, List.drop_left, hd]
    · rw [List.drop_left, List.drop_left, hd]

/-- Witness for C9: two always-true filesystems over the same root. -/
theorem embedWasm_deterministic_witness :
    ∃ e1 o1 e2 o2,
      embedWasm (fun _ => true) ⟨"/proj", ["-a"], [], []⟩ = Except.ok (e1, o1)
      ∧ embedWasm (fun s => s == s) ⟨"/proj", [], ["-b"], []⟩ = Except.ok (e2, o2)
      ∧ o1 = o2
      ∧ e1.LINKFLAGS.drop (["-a"] : List String).length = e2.LINKFLAGS.drop ([] : List String).length
      ∧ e1.BUILD_FLAGS.drop ([] : List String).length = e2.BUILD_FLAGS.drop (["-b"] : List String).length :=
  embedWasm_deterministic (fun _ => true) (fun s => s == s)
    ⟨"/proj", ["-a"], [], []⟩ ⟨"/proj", [], ["-b"], []⟩ rfl (by simp)

/-- Claim C10: on the found branch the hook only appends at the tail of
the two flag lists: every pre-existing entry is preserved in order, the
project-root variable and all other construction variables are unchanged,
and the embed directive sits immediately before the path flag among the
appended linker flags. -/
theorem embedWasm_found_tail_append (fs : String → Bool) (env : SConsEnv)
    (h : fs (resolvedPath env.PROJECT_DIR) = true) :
    ∃ e out,
      embedWasm fs env = Except.ok (e, out)
      ∧ e.LINKFLAGS =
          env.LINKFLAGS ++ ["-Wl,--embedded-file", "-Wl," ++ resolvedPath env.PROJECT_DIR]
      ∧ e.BUILD_FLAGS =
          env.BUILD_FLAGS ++ ["-DWASM_BINARY_PATH=\\\"" ++ resolvedPath env.PROJECT_DIR ++ "\\\""]
      ∧ e.PROJECT_DIR = env.PROJECT_DIR
      ∧ e.otherVars = env.otherVars
      ∧ e.LINKFLAGS[env.LINKFLAGS.length]? = some "-Wl,--embedded-file"
      ∧ e.LINKFLAGS[env.LINKFLAGS.length + 1]? = some ("-Wl," ++ resolvedPath env.PROJECT_DIR) := by
  refine
    ⟨⟨env.PROJECT_DIR,
      env.LINKFLAGS ++ ["-Wl,--embedded-file", "-Wl," ++ resolvedPath env.PROJECT_DIR],
      env.BUILD_FLAGS ++ ["-DWASM_BINARY_PATH=\\\"" ++ resolvedPath env.PROJECT_DIR ++ "\\\""],
      env.otherVars⟩,
     ["Embedding WASM binary: " ++ resolvedPath env.PROJECT_DIR],
     ?_, rfl, rfl, rfl, rfl, ?_, ?_⟩
  · simp [embedWasm, h]
  · rw [List.getElem?_append_right (Nat.le_refl _)]
    simp
  · rw [List.getElem?_append_right (Nat.le_succ_of_le (Nat.le_refl _))]
    simp

/-- Witness for C10 at a concrete environment with a pre-existing flag. -/
theorem embedWasm_found_tail_append_witness :
    ∃ e out,
      embedWasm (fun _ => true) ⟨"/proj", ["-old"], ["-Dold"], [("AR", ["ar"])]⟩ =
        Except.ok (e, out)
      ∧ e.LINKFLAGS =
          ["-old"] ++ ["-Wl,--embedded-file", "-Wl," ++ resolvedPath "/proj"]
      ∧ e.BUILD_FLAGS =
          ["-Dold"] ++ ["-DWASM_BINARY_PATH=\\\"" ++ resolvedPath "/proj" ++ "\\\""]
      ∧ e.PROJECT_DIR = "/proj"
      ∧ e.otherVars = [("AR", ["ar"])]
      ∧ e.LINKFLAGS[(["-old"] : List String).length]? = some "-Wl,--embedded-file"
      ∧ e.LINKFLAGS[(["-old"] : List String).length + 1]? =
          some ("-Wl," ++ resolvedPath "/proj") :=
  embedWasm_found_tail_append (fun _ => true) ⟨"/proj", ["-old"], ["-Dold"], [("AR", ["ar"])]⟩ rfl
